import Mathlib

/-!
Verification of the single-file APOD-fortune app (`src/app.py`).

Dates are modelled by their proleptic Gregorian ordinal (the value of
`datetime.date.toordinal` in Python): date comparison in Python agrees with
ordinal comparison, and `d - timedelta(days=1)` is `fromordinal (toordinal d - 1)`,
so the one-day-back walk of `get_apod` becomes decrementing an `Int`.

The two external services are modelled as oracles: the APOD HTTP endpoint as a
function from a date ordinal to an `ApodHttp` outcome, and the chat-completion
endpoint as a function from a `ChatRequest` to a `GptOutcome`.  Streamlit
message side effects (`st.error` / `st.warning`) of the two fallback-producing
functions are returned explicitly as a `List Msg`.

The Python string methods the app uses (`lower`, `endswith`, `strip`) are
embedded as character-list operations so that they compute inside proofs; the
case mapping is ASCII, which covers every suffix the app compares against.
-/

namespace GGds

/-- A user-visible streamlit message (`st.error` / `st.warning`). -/
inductive Msg where
  | error (text : String)
  | warning (text : String)
  deriving DecidableEq

/-- The Python method `s.lower()`, character by character (ASCII case mapping). -/
def lower (s : String) : String := String.mk (s.data.map Char.toLower)

/-- The Python method `s.endswith(suffix)`: the characters of `suffix` are a
suffix of the characters of `s`. -/
def endswith (s suffix : String) : Bool := suffix.data.isSuffixOf s.data

/-- The Python method `s.strip()`: remove leading and trailing whitespace. -/
def strip (s : String) : String :=
  String.mk (((s.data.dropWhile Char.isWhitespace).reverse.dropWhile
    Char.isWhitespace).reverse)

/-- JSON payload of a 200 response from the APOD endpoint; `Option` models
`dict.get` returning `None` for absent keys. -/
structure ApodData where
  media_type : Option String
  url : Option String
  title : Option String
  explanation : Option String
  deriving DecidableEq

/-- Outcome of one `requests.get` to the APOD endpoint, before the error
handling in `get_apod`: a success body, a non-2xx status (which
`raise_for_status` turns into an `HTTPError`), or a request failure (timeout,
connection error — exceptions that are not `HTTPError`). -/
inductive ApodHttp where
  | ok (data : ApodData)
  | httpError (status : Nat)
  | reqFailure
  deriving DecidableEq

/-- The error taxonomy of the spec for the Fetcher.  `upstreamError` covers the
non-404 `HTTPError` branch, the request-failure branch and any other exception
caught by the generic handler; `validationError` is the `ValueError` raised for
a bad `media_type`; `notFoundError` is the exhausted 404 walk. -/
inductive FetchError where
  | upstreamError
  | validationError
  | notFoundError
  deriving DecidableEq

/-- `True` for Gregorian leap years, as `calendar.isleap`. -/
def isLeap (y : Int) : Bool := y % 4 == 0 && (y % 100 != 0 || y % 400 == 0)

/-- Days in the months before month `m` (1-based) of a non-leap year. -/
def daysBeforeMonth (m : Nat) : Nat :=
  [0, 0, 31, 59, 90, 120, 151, 181, 212, 243, 273, 304, 334].getD m 0

/-- Number of days strictly before January 1 of year `y` in the proleptic
Gregorian calendar with day 1 = 0001-01-01, as in the CPython `datetime`
module. -/
def daysBeforeYear (y : Int) : Int :=
  let py := y - 1
  365 * py + py / 4 - py / 100 + py / 400

/-- `datetime.date(y, m, d).toordinal()` for a valid Gregorian date. -/
def toOrdinal (y : Int) (m d : Nat) : Int :=
  daysBeforeYear y + (daysBeforeMonth m + (if isLeap y && m > 2 then 1 else 0) : Nat) + d

/-- Ordinal of `datetime.date(1995, 6, 16)`, the hard lower bound of the
one-day-back walk in `get_apod`. -/
def apodStart : Int := toOrdinal 1995 6 16

/-- `get_apod` from `src/app.py`, over an oracle `env` giving the HTTP outcome
for each requested date ordinal.  A 200 body with a `media_type` other than
`"image"`/`"video"` raises `ValueError` (caught by the generic handler and
re-raised, surfaced here as `validationError`); a missing `"url"` key raises
`KeyError` (likewise re-raised, an upstream failure).  On a 404, the date is
decremented; if the decremented date precedes 1995-06-16 the `HTTPError` is
re-raised (`notFoundError`), otherwise the call recurses on the decremented
date. -/
def get_apod (env : Int → ApodHttp) (today : Int) :
    Except FetchError (String × String × String) :=
  match env today with
  | .ok data =>
      if data.media_type = some "image" ∨ data.media_type = some "video" then
        match data.url with
        | some media_url =>
            .ok (media_url, data.title.getD "No Title", data.explanation.getD "")
        | none => .error .upstreamError
      else
        .error .validationError
  | .httpError status =>
      if status = 404 then
        if today - 1 < apodStart then .error .notFoundError
        else get_apod env (today - 1)
      else .error .upstreamError
  | .reqFailure => .error .upstreamError
termination_by (today - apodStart).toNat
decreasing_by
  rename_i h
  rw [not_lt] at h
  omega

/-- Fuel-bounded variant of `get_apod` by structural recursion: `none` means
the fuel ran out before the walk finished.  Used to state that the recursion
of `get_apod` is a bounded linear walk. -/
def get_apod_fuel (env : Int → ApodHttp) :
    Nat → Int → Option (Except FetchError (String × String × String))
  | 0, _ => none
  | fuel + 1, today =>
    match env today with
    | .ok data =>
        if data.media_type = some "image" ∨ data.media_type = some "video" then
          match data.url with
          | some media_url =>
              some (.ok (media_url, data.title.getD "No Title", data.explanation.getD ""))
          | none => some (.error .upstreamError)
        else
          some (.error .validationError)
    | .httpError status =>
        if status = 404 then
          if today - 1 < apodStart then some (.error .notFoundError)
          else get_apod_fuel env fuel (today - 1)
        else some (.error .upstreamError)
    | .reqFailure => some (.error .upstreamError)

/-- One chat-completion request as sent by `openai.chat.completions.create`:
the model name, the system message, the user message and `max_tokens`. -/
structure ChatRequest where
  model : String
  system : String
  user : String
  max_tokens : Nat
  deriving DecidableEq

/-- Outcome of one chat-completion call: the message content of the first
choice, an `openai.RateLimitError`, or any other exception (with its text). -/
inductive GptOutcome where
  | ok (content : String)
  | rateLimitError
  | otherError (text : String)
  deriving DecidableEq

/-- The request built by `generate_fortune` for input `text`. -/
def fortuneRequest (text : String) : ChatRequest :=
  { model := "gpt-4o-mini"
    system := "You are a poetic spiritual fortune teller."
    user := "あなたは詩的でスピリチュアルな占い師です。以下の宇宙画像の解説をインスピレーションに、日本語で300文字以内の今日の運勢を作成してください。\n\n【解説】\n" ++ text
    max_tokens := 300 }

/-- The fallback string returned on `openai.RateLimitError`. -/
def rateLimitFallback : String :=
  "宇宙は静かにあなたを見守っています。今日は焦らず、自分のペースで進みましょう。"

/-- The fallback string returned on any other generation failure. -/
def genericFallback : String :=
  "今日は心を空に向けて、穏やかな呼吸を。運命はあなたの味方です。"

/-- The `st.warning` shown when the generation call hits the rate limit. -/
def rateLimitWarnMsg : Msg :=
  .warning "⚠️ OpenAIの利用上限に達しました。代わりに星からの囁きをお届けします。"

/-- The `st.error` shown when the generation call fails for any other reason
`e`. -/
def fortuneErrorMsg (e : String) : Msg :=
  .error ("💥 占い生成に失敗しました。\n\nError: " ++ e ++ "\n代わりに自動メッセージを表示します。")

/-- `generate_fortune` from `src/app.py`: success returns the stripped content
with no message; `RateLimitError` returns `rateLimitFallback` with a warning;
any other exception returns `genericFallback` with an error message.  The
function never raises: its result type carries no failure case. -/
def generate_fortune (gpt : ChatRequest → GptOutcome) (text : String) :
    String × List Msg :=
  match gpt (fortuneRequest text) with
  | .ok content => (strip content, [])
  | .rateLimitError => (rateLimitFallback, [rateLimitWarnMsg])
  | .otherError e => (genericFallback, [fortuneErrorMsg e])

/-- The request built by `translate_to_japanese` for input `text`. -/
def translateRequest (text : String) : ChatRequest :=
  { model := "gpt-4o-mini"
    system := "You are a professional English to Japanese translator."
    user := "以下の天文学に関する解説文を自然で正確な日本語に翻訳してください：\n\n" ++ text
    max_tokens := 500 }

/-- The `st.warning` shown when the translation call fails with `e`. -/
def translateWarnMsg (e : String) : Msg :=
  .warning ("⚠️ NASA解説の翻訳に失敗しました。英語のまま表示します。\nError: " ++ e)

/-- `translate_to_japanese` from `src/app.py`: success returns the stripped
content; its single `except Exception` handler catches every failure (including
`RateLimitError`) and returns the input unchanged with a warning. -/
def translate_to_japanese (gpt : ChatRequest → GptOutcome) (text : String) :
    String × List Msg :=
  match gpt (translateRequest text) with
  | .ok content => (strip content, [])
  | .rateLimitError => (text, [translateWarnMsg "RateLimitError"])
  | .otherError e => (text, [translateWarnMsg e])

/-- The `media_type` stored by the refresh block:
`"video" if media_url.lower().endswith((".mp4", ".mov", ".avi")) else "image"`. -/
def media_type_of (media_url : String) : String :=
  if endswith (lower media_url) ".mp4" || endswith (lower media_url) ".mov"
      || endswith (lower media_url) ".avi"
  then "video" else "image"

/-- Stated from the words of the spec for C3: `media_url` "ends in" `suffix`
"compared case-insensitively". -/
def endsInCI (media_url suffix : String) : Bool :=
  endswith (lower media_url) (lower suffix)

/-- The six `st.session_state` keys the app uses.  `none` models an absent key
as well as the `None` stored under `"fortune"` by the initialisation block
(both are falsy under `st.session_state.get("fortune")`). -/
structure SessionState where
  fortune : Option String
  media_url : Option String
  title : Option String
  media_type : Option String
  explanation : Option String
  explanation_jp : Option String
  deriving DecidableEq

/-- Session state before any refresh: the initialisation block only stores
`None` under `"fortune"`; the other keys are absent. -/
def initState : SessionState :=
  { fortune := none, media_url := none, title := none, media_type := none
    explanation := none, explanation_jp := none }

/-- The body of the refresh-button block.  If `get_apod` raises, the exception
propagates out of the handler before any `st.session_state` assignment, so the
state is returned unchanged; otherwise the six keys are all assigned from the
results of this cycle.  The fortune is generated from the fetched
`explanation`, not from the translation. -/
def refreshCycle (apod : Int → ApodHttp) (gpt : ChatRequest → GptOutcome)
    (today : Int) (s : SessionState) : SessionState :=
  match get_apod apod today with
  | .error _ => s
  | .ok (media_url, title, explanation) =>
      let explanation_jp := (translate_to_japanese gpt explanation).1
      let fortune := (generate_fortune gpt explanation).1
      { fortune := some fortune
        media_url := some media_url
        title := some title
        media_type := some (media_type_of media_url)
        explanation := some explanation
        explanation_jp := some explanation_jp }

/-- What the page body shows: the invitation `st.info` prompt, or the full
result panel. -/
inductive Rendered where
  | invitation
  | result (media_type media_url title fortune explanation_jp explanation : String)
  deriving DecidableEq

/-- Truthiness of `st.session_state.get("fortune")`: an absent key, a stored
`None` and an empty string are all falsy. -/
def fortuneTruthy (s : SessionState) : Bool :=
  match s.fortune with
  | some f => !(f == "")
  | none => false

/-- The rendering branch.  When the fortune is truthy it reads the five other
keys with `st.session_state[...]`; a missing key there would raise `KeyError`,
modelled as `none`.  Otherwise it shows the invitation prompt. -/
def render (s : SessionState) : Option Rendered :=
  if fortuneTruthy s then
    match s.media_type, s.media_url, s.title, s.fortune, s.explanation_jp,
        s.explanation with
    | some mt, some mu, some t, some f, some jp, some ex =>
        some (.result mt mu t f jp ex)
    | _, _, _, _, _, _ => none
  else some .invitation

/-- Session states reachable in one session: the initial state, then any number
of button presses, each running one refresh cycle against some oracles. -/
inductive Reachable : SessionState → Prop where
  | init : Reachable initState
  | step (apod : Int → ApodHttp) (gpt : ChatRequest → GptOutcome) (today : Int)
      (s : SessionState) : Reachable s → Reachable (refreshCycle apod gpt today s)

/-- Unfolding of `get_apod` on a 404 response. -/
theorem get_apod_of_404 (env : Int → ApodHttp) (today : Int)
    (h : env today = .httpError 404) :
    get_apod env today =
      if today - 1 < apodStart then .error .notFoundError
      else get_apod env (today - 1) := by
  rw [get_apod, h]
  simp

/-- Unfolding of `get_apod` on a 200 response. -/
theorem get_apod_of_ok (env : Int → ApodHttp) (today : Int) (data : ApodData)
    (h : env today = .ok data) :
    get_apod env today =
      if data.media_type = some "image" ∨ data.media_type = some "video" then
        match data.url with
        | some media_url =>
            .ok (media_url, data.title.getD "No Title", data.explanation.getD "")
        | none => .error .upstreamError
      else .error .validationError := by
  rw [get_apod, h]

/-- C1: on a date whose picture is reported not found (HTTP 404), `get_apod`
steps to the previous day when that day is at or after 1995-06-16, and the
call returns `notFoundError` exactly when either the decremented date precedes
1995-06-16 or the recursive call on the previous day itself returns
`notFoundError`. -/
theorem c1_fetch_404_recursion (env : Int → ApodHttp) (today : Int)
    (h : env today = .httpError 404) :
    (apodStart ≤ today - 1 → get_apod env today = get_apod env (today - 1)) ∧
    (get_apod env today = .error .notFoundError ↔
      (today - 1 < apodStart ∨ get_apod env (today - 1) = .error .notFoundError)) := by
  rw [get_apod_of_404 env today h]
  constructor
  · intro hle
    rw [if_neg (not_lt.mpr hle)]
  · by_cases hlt : today - 1 < apodStart
    · simp [hlt]
    · simp [hlt]

/-- C1 witness: the recursion characterisation instantiated at the ordinal of
1995-06-16 against an endpoint that always answers 404. -/
theorem c1_witness :
    (apodStart ≤ (728460 : Int) - 1 →
      get_apod (fun _ => .httpError 404) 728460 =
        get_apod (fun _ => .httpError 404) (728460 - 1)) ∧
    (get_apod (fun _ => .httpError 404) 728460 = .error .notFoundError ↔
      ((728460 : Int) - 1 < apodStart ∨
        get_apod (fun _ => .httpError 404) (728460 - 1) = .error .notFoundError)) :=
  c1_fetch_404_recursion (fun _ => .httpError 404) 728460 rfl

/-- C2 counterexample: on the success path, when the model returns an empty
content string, `generate_fortune` returns the empty string, so it does not
return a non-empty string for every input on the success path. -/
theorem c2_counterexample :
    (generate_fortune (fun _ => .ok "") "A bright nebula glows in Orion.").1 = "" := by
  decide

/-- C2 (amended): `generate_fortune` returns a non-empty string for every
input text, including the empty string, whenever the generation call fails
with a rate limit or any other error (the two fixed fallback strings are
non-empty); on the success path the result is the stripped model content,
which can be empty. -/
theorem c2_nonempty_on_failure (gpt : ChatRequest → GptOutcome) (text : String)
    (h : gpt (fortuneRequest text) = .rateLimitError ∨
      ∃ e, gpt (fortuneRequest text) = .otherError e) :
    (generate_fortune gpt text).1 ≠ "" := by
  rcases h with h | ⟨e, h⟩
  · simp [generate_fortune, h]
    decide
  · simp [generate_fortune, h]
    decide

/-- C2 witness: the empty input under a rate-limited generation call still
yields a non-empty fortune. -/
theorem c2_witness :
    (generate_fortune (fun _ => .rateLimitError) "").1 ≠ "" :=
  c2_nonempty_on_failure (fun _ => .rateLimitError) "" (Or.inl rfl)

/-- The suffix test written from the words of the spec agrees with the one in
the code: the three literal suffixes are already lowercase. -/
theorem endsInCI_eq (u : String) :
    (endsInCI u ".mp4" || endsInCI u ".mov" || endsInCI u ".avi") =
      (endswith (lower u) ".mp4" || endswith (lower u) ".mov"
        || endswith (lower u) ".avi") := by
  unfold endsInCI
  rw [show lower ".mp4" = ".mp4" from by decide,
    show lower ".mov" = ".mov" from by decide,
    show lower ".avi" = ".avi" from by decide]

/-- C3: after a refresh whose fetch succeeds, the stored `media_type` is
exactly `"video"` when the fetched `media_url` ends in `.mp4`, `.mov` or
`.avi` compared case-insensitively, and `"image"` for every other suffix. -/
theorem c3_media_type_from_suffix (apod : Int → ApodHttp)
    (gpt : ChatRequest → GptOutcome) (today : Int) (s : SessionState)
    (u t ex : String) (h : get_apod apod today = .ok (u, t, ex)) :
    (refreshCycle apod gpt today s).media_type =
      some (if endsInCI u ".mp4" || endsInCI u ".mov" || endsInCI u ".avi"
        then "video" else "image") := by
  unfold refreshCycle
  rw [h]
  simp [media_type_of, endsInCI_eq]

/-- C3 witness: a fetched URL ending in `.MP4` is classified through the
case-insensitive suffix test. -/
theorem c3_witness :
    (refreshCycle
        (fun _ => .ok { media_type := some "image", url := some "http://x/A.MP4", title := some "T", explanation := some "E" })
        (fun _ => .rateLimitError) 0 initState).media_type =
      some (if endsInCI "http://x/A.MP4" ".mp4" || endsInCI "http://x/A.MP4" ".mov"
        || endsInCI "http://x/A.MP4" ".avi" then "video" else "image") :=
  c3_media_type_from_suffix _ _ 0 initState "http://x/A.MP4" "T" "E"
    (by rw [get_apod]; simp)

/-- C4: `generate_fortune` never raises: for every input and every outcome of
the generation call it returns a plain string — the fixed rate-limit fallback
with a non-fatal warning on a rate-limit failure, the distinct fixed generic
fallback with a non-fatal error message on any other failure, and the model
content stripped of surrounding whitespace on success. -/
theorem c4_generate_never_raises (gpt : ChatRequest → GptOutcome) (text : String) :
    (gpt (fortuneRequest text) = .rateLimitError →
      generate_fortune gpt text = (rateLimitFallback, [rateLimitWarnMsg])) ∧
    (∀ e, gpt (fortuneRequest text) = .otherError e →
      generate_fortune gpt text = (genericFallback, [fortuneErrorMsg e])) ∧
    (∀ c, gpt (fortuneRequest text) = .ok c →
      generate_fortune gpt text = (strip c, [])) ∧
    rateLimitFallback ≠ genericFallback ∧
    rateLimitFallback ≠ "" ∧ genericFallback ≠ "" := by
  refine ⟨fun h => by simp [generate_fortune, h],
    fun e h => by simp [generate_fortune, h],
    fun c h => by simp [generate_fortune, h], by decide, by decide, by decide⟩

/-- C4 witness: the rate-limit case at the empty input returns the rate-limit
fallback with its warning. -/
theorem c4_witness :
    generate_fortune (fun _ => .rateLimitError) "" = (rateLimitFallback, [rateLimitWarnMsg]) :=
  (c4_generate_never_raises (fun _ => .rateLimitError) "").1 rfl

/-- C5: a 200 response whose `media_type` is neither `"image"` nor `"video"`
makes `get_apod` fail with `validationError`, for every endpoint behaviour on
the remaining dates — so no one-day-back retry is performed (the result is
determined by the response for the requested date alone). -/
theorem c5_validation_no_retry (env : Int → ApodHttp) (today : Int)
    (data : ApodData) (h : env today = .ok data)
    (hmt : data.media_type ≠ some "image" ∧ data.media_type ≠ some "video") :
    get_apod env today = .error .validationError ∧
    ∀ env₂ : Int → ApodHttp, env₂ today = .ok data →
      get_apod env₂ today = .error .validationError := by
  have key : ∀ env₂ : Int → ApodHttp, env₂ today = .ok data →
      get_apod env₂ today = .error .validationError := by
    intro env₂ h₂
    rw [get_apod_of_ok env₂ today data h₂, if_neg]
    rintro (hc | hc)
    · exact hmt.1 hc
    · exact hmt.2 hc
  exact ⟨key env h, key⟩

/-- C5 witness: a response with `media_type` `"other"` yields
`validationError`. -/
theorem c5_witness :
    get_apod (fun _ => .ok { media_type := some "other", url := some "u", title := none, explanation := none }) 0 = .error .validationError ∧
    ∀ env₂ : Int → ApodHttp, env₂ 0 = .ok { media_type := some "other", url := some "u", title := none, explanation := none } →
      get_apod env₂ 0 = .error .validationError :=
  c5_validation_no_retry _ 0 _ rfl (by decide)

/-- C6: whenever the translation call fails (any outcome other than success),
`translate_to_japanese` returns the input text unchanged and signals exactly
one non-fatal warning; it never raises. -/
theorem c6_translate_identity_on_failure (gpt : ChatRequest → GptOutcome)
    (text : String) (h : ∀ c, gpt (translateRequest text) ≠ .ok c) :
    (translate_to_japanese gpt text).1 = text ∧
    ∃ w, (translate_to_japanese gpt text).2 = [Msg.warning w] := by
  rcases hO : gpt (translateRequest text) with c | _ | e
  · exact absurd hO (h c)
  · simp [translate_to_japanese, hO, translateWarnMsg]
  · simp [translate_to_japanese, hO, translateWarnMsg]

/-- C6 witness: a failing translation call returns the input unchanged with a
warning. -/
theorem c6_witness :
    (translate_to_japanese (fun _ => .otherError "boom") "hello").1 = "hello" ∧
    ∃ w, (translate_to_japanese (fun _ => .otherError "boom") "hello").2 = [Msg.warning w] :=
  c6_translate_identity_on_failure (fun _ => .otherError "boom") "hello"
    (fun c h => by cases h)

/-- C7: if the fetch fails with any `FetchError`, the refresh cycle aborts
before any session-state field is written, leaving the previous session state
entirely unchanged. -/
theorem c7_fetch_failure_preserves_state (apod : Int → ApodHttp)
    (gpt : ChatRequest → GptOutcome) (today : Int) (s : SessionState)
    (e : FetchError) (h : get_apod apod today = .error e) :
    refreshCycle apod gpt today s = s := by
  unfold refreshCycle
  rw [h]

/-- C7 witness: a request failure leaves the initial state unchanged. -/
theorem c7_witness :
    refreshCycle (fun _ => .reqFailure) (fun _ => .rateLimitError) 0 initState = initState :=
  c7_fetch_failure_preserves_state _ _ 0 initState .upstreamError (by rw [get_apod])

/-- C8: after a successful fetch, the stored fortune is generated from the
original fetched explanation — not from the translation, which is stored
separately — and it is unchanged under any change of the oracle on requests
other than the fortune request for that explanation. -/
theorem c8_fortune_from_original (apod : Int → ApodHttp)
    (gpt : ChatRequest → GptOutcome) (today : Int) (s : SessionState)
    (u t ex : String) (h : get_apod apod today = .ok (u, t, ex)) :
    (refreshCycle apod gpt today s).fortune = some ((generate_fortune gpt ex).1) ∧
    (refreshCycle apod gpt today s).explanation_jp =
      some ((translate_to_japanese gpt ex).1) ∧
    ∀ gpt₂ : ChatRequest → GptOutcome,
      gpt₂ (fortuneRequest ex) = gpt (fortuneRequest ex) →
      (refreshCycle apod gpt₂ today s).fortune = (refreshCycle apod gpt today s).fortune := by
  unfold refreshCycle
  rw [h]
  refine ⟨rfl, rfl, fun gpt₂ hagree => ?_⟩
  simp [generate_fortune, hagree]

/-- C8 witness: a successful fetch with explanation `"E"` stores the fortune
generated from `"E"` and the translation of `"E"`. -/
theorem c8_witness :
    (refreshCycle
        (fun _ => .ok { media_type := some "image", url := some "u", title := some "T", explanation := some "E" })
        (fun _ => .ok " f ") 0 initState).fortune =
      some ((generate_fortune (fun _ => .ok " f ") "E").1) ∧
    (refreshCycle
        (fun _ => .ok { media_type := some "image", url := some "u", title := some "T", explanation := some "E" })
        (fun _ => .ok " f ") 0 initState).explanation_jp =
      some ((translate_to_japanese (fun _ => .ok " f ") "E").1) ∧
    ∀ gpt₂ : ChatRequest → GptOutcome,
      gpt₂ (fortuneRequest "E") = (fun _ => GptOutcome.ok " f ") (fortuneRequest "E") →
      (refreshCycle
          (fun _ => .ok { media_type := some "image", url := some "u", title := some "T", explanation := some "E" })
          gpt₂ 0 initState).fortune =
        (refreshCycle
            (fun _ => .ok { media_type := some "image", url := some "u", title := some "T", explanation := some "E" })
            (fun _ => .ok " f ") 0 initState).fortune :=
  c8_fortune_from_original _ _ 0 initState "u" "T" "E" (by rw [get_apod]; simp)

/-- Enough fuel makes the fuel-bounded walk agree with `get_apod`: the
recursion visits at most one date per ordinal between the lower bound and the
starting date. -/
theorem get_apod_fuel_sufficient (env : Int → ApodHttp) (n : Nat) :
    ∀ today : Int, (today - apodStart).toNat < n →
      get_apod_fuel env n today = some (get_apod env today) := by
  induction n with
  | zero => intro today h; omega
  | succ n ih =>
      intro today h
      rw [get_apod]
      show (match env today with
        | .ok data =>
            if data.media_type = some "image" ∨ data.media_type = some "video" then
              match data.url with
              | some media_url =>
                  some (Except.ok (media_url, data.title.getD "No Title", data.explanation.getD ""))
              | none => some (Except.error FetchError.upstreamError)
            else some (Except.error FetchError.validationError)
        | .httpError status =>
            if status = 404 then
              if today - 1 < apodStart then some (Except.error FetchError.notFoundError)
              else get_apod_fuel env n (today - 1)
            else some (Except.error FetchError.upstreamError)
        | .reqFailure => some (Except.error FetchError.upstreamError)) = _
      rcases hE : env today with data | status | _
      · simp [hE]
        split
        · split <;> rfl
        · rfl
      · simp [hE]
        by_cases h404 : status = 404
        · subst h404
          simp
          by_cases hlt : today - 1 < apodStart
          · simp [hlt]
          · simp [hlt]
            exact ih (today - 1) (by omega)
        · simp [h404]
      · simp [hE]

/-- C9: the one-day-back walk of `get_apod` terminates for every starting
date and every endpoint behaviour: the number of dates between the lower
bound and the starting date, plus one, bounds the number of recursive steps,
so the fuel-bounded walk with that much fuel never runs out and computes the
same total result. -/
theorem c9_bounded_walk (env : Int → ApodHttp) (today : Int) :
    get_apod_fuel env ((today - apodStart).toNat + 1) today =
      some (get_apod env today) :=
  get_apod_fuel_sufficient env _ today (Nat.lt_succ_self _)

/-- C10: every session state reachable by a sequence of refreshes is
all-or-nothing: either no refresh has succeeded yet and all six fields are
unset with the invitation prompt rendered, or all six fields were assigned
together in one successful refresh — consistently derived from one fetched
record and one oracle — and the rendering branch never reads an unset field. -/
theorem c10_session_all_or_nothing (s : SessionState) (h : Reachable s) :
    (s.fortune = none ∧ s.media_url = none ∧ s.title = none ∧
      s.media_type = none ∧ s.explanation = none ∧ s.explanation_jp = none ∧
      render s = some .invitation) ∨
    ((∃ gpt u t ex,
        s.fortune = some ((generate_fortune gpt ex).1) ∧
        s.media_url = some u ∧ s.title = some t ∧
        s.media_type = some (media_type_of u) ∧
        s.explanation = some ex ∧
        s.explanation_jp = some ((translate_to_japanese gpt ex).1)) ∧
      render s ≠ none) := by
  induction h with
  | init => exact Or.inl ⟨rfl, rfl, rfl, rfl, rfl, rfl, rfl⟩
  | step apod gpt today s hs ih =>
      rcases hA : get_apod apod today with e | ⟨u, t, ex⟩
      · rw [show refreshCycle apod gpt today s = s from by unfold refreshCycle; rw [hA]]
        exact ih
      · have hR : refreshCycle apod gpt today s =
            { fortune := some ((generate_fortune gpt ex).1)
              media_url := some u
              title := some t
              media_type := some (media_type_of u)
              explanation := some ex
              explanation_jp := some ((translate_to_japanese gpt ex).1) } := by
          unfold refreshCycle
          rw [hA]
        rw [hR]
        refine Or.inr ⟨⟨gpt, u, t, ex, rfl, rfl, rfl, rfl, rfl, rfl⟩, ?_⟩
        unfold render
        split
        · simp
        · simp

/-- C10 witness: the invariant at the initial state. -/
theorem c10_witness :
    (initState.fortune = none ∧ initState.media_url = none ∧ initState.title = none ∧
      initState.media_type = none ∧ initState.explanation = none ∧
      initState.explanation_jp = none ∧ render initState = some .invitation) ∨
    ((∃ gpt u t ex,
        initState.fortune = some ((generate_fortune gpt ex).1) ∧
        initState.media_url = some u ∧ initState.title = some t ∧
        initState.media_type = some (media_type_of u) ∧
        initState.explanation = some ex ∧
        initState.explanation_jp = some ((translate_to_japanese gpt ex).1)) ∧
      render initState ≠ none) :=
  c10_session_all_or_nothing initState Reachable.init

end GGds
